import Mathlib

/-!
Shallow embedding of the verification workflow subsystem of the
trueport-backend repository: the Verification / VerificationLog mongoose
schemas, the unified token-based verification routes, the verifier
dashboard routes, the legacy experience-only routes, and the token
generator.  Machine state (the MongoDB collections) is passed explicitly;
the current time, the random bytes consumed by the token generator and the
success of outbound email are inputs to each operation.
-/

namespace TruePort

/-- Status enum of the Verification mongoose schema
(`enum: ['PENDING', 'APPROVED', 'REJECTED']`, default PENDING). -/
inductive VStatus where
  | pending
  | approved
  | rejected
deriving DecidableEq, Repr

/-- Item kind enum (`['EXPERIENCE', 'EDUCATION', 'GITHUB_PROJECT']`). -/
inductive ItemType where
  | experience
  | education
  | githubProject
deriving DecidableEq, Repr

/-- A verifiable item (Experience / Education / GithubProject document),
restricted to the fields the verification engine reads or writes. -/
structure Item where
  id : Nat
  itemType : ItemType
  userId : Nat
  title : String
  verified : Bool
  verifiedAt : Option Nat
  verifiedBy : Option String
  verifierComment : Option String
deriving DecidableEq, Repr

/-- A user document, restricted to the fields the verification routes read.
An absent institute is `none`. -/
structure UserRec where
  id : Nat
  email : String
  name : String
  role : String
  institute : Option String
deriving DecidableEq, Repr

/-- A Verification document.  Times are milliseconds since the epoch. -/
structure Verification where
  id : Nat
  itemId : Nat
  itemType : ItemType
  experienceId : Option Nat
  verifierEmail : String
  token : String
  status : VStatus
  comment : Option String
  actedBy : Option String
  actedAt : Option Nat
  expiresAt : Nat
  createdAt : Nat
deriving DecidableEq, Repr

/-- A VerificationLog document (metadata omitted). -/
structure LogEntry where
  verificationId : Nat
  action : String
  actorEmail : String
  timestamp : Nat
deriving DecidableEq, Repr

/-- The durable state: the MongoDB collections the verification code
touches, plus the id counter for new Verification documents. -/
structure DB where
  users : List UserRec
  items : List Item
  verifications : List Verification
  logs : List LogEntry
  nextVerificationId : Nat
deriving DecidableEq, Repr

/-- An HTTP response: status code and message. -/
structure Resp where
  status : Nat
  message : String
deriving DecidableEq, Repr

/-- Result of one route handler: the response, the state after the call,
the recipients of attempted outbound emails, and server-side warnings
(`console.warn`). -/
structure RouteOut where
  resp : Resp
  db : DB
  emails : List String
  warnings : List String
deriving DecidableEq, Repr

/-- JavaScript falsiness of an optional string (`!s` for a string field
that may be undefined or empty). -/
def strFalsy : Option String → Bool
  | none => true
  | some s => s == ""

/-- JavaScript `s || ''`. -/
def jsOrEmpty : Option String → String
  | none => ""
  | some s => s

/-- ASCII case mapping of JavaScript `toUpperCase()`. -/
def upperStr (s : String) : String := String.mk (s.data.map Char.toUpper)

/-- ASCII case mapping of JavaScript `toLowerCase()`. -/
def lowerStr (s : String) : String := String.mk (s.data.map Char.toLower)

/-- The `validTypes` check plus the `switch (itemType.toUpperCase())` of
`getModelAndItem`. -/
def parseItemType (s : String) : Option ItemType :=
  if upperStr s == "EXPERIENCE" then some ItemType.experience
  else if upperStr s == "EDUCATION" then some ItemType.education
  else if upperStr s == "GITHUB_PROJECT" then some ItemType.githubProject
  else none

/-- Lower-case rendering of an item type, as produced by
`itemType.toLowerCase()` on the canonical strings. -/
def itemTypeLower : ItemType → String
  | ItemType.experience => "experience"
  | ItemType.education => "education"
  | ItemType.githubProject => "github_project"

/-- `Model.findOne({ _id: itemId })` for the model selected by the kind
(each kind is its own collection). -/
def findItem (db : DB) (t : ItemType) (iid : Nat) : Option Item :=
  db.items.find? (fun it => it.itemType == t && it.id == iid)

/-- `Model.findOne({ _id: itemId, userId })`. -/
def findOwnedItem (db : DB) (t : ItemType) (iid : Nat) (uid : Nat) : Option Item :=
  db.items.find? (fun it => it.itemType == t && it.id == iid && it.userId == uid)

/-- `User.findById(id)`. -/
def findUserById (db : DB) (uid : Nat) : Option UserRec :=
  db.users.find? (fun u => u.id == uid)

/-- `User.findOne({ email: verifierEmail.toLowerCase(), role: 'VERIFIER' })`. -/
def findVerifierByEmail (db : DB) (email : String) : Option UserRec :=
  db.users.find? (fun u => u.email == lowerStr email && u.role == "VERIFIER")

/-- `Model.findByIdAndUpdate(itemId, fields)`: updates the matching item in
its collection if present, and is a no-op otherwise. -/
def updateItem (db : DB) (t : ItemType) (iid : Nat) (f : Item → Item) : DB :=
  { db with items :=
      db.items.map (fun it => if it.itemType == t && it.id == iid then f it else it) }

/-- Saving a modified Verification document back in place. -/
def updateVerification (db : DB) (v : Verification) : DB :=
  { db with verifications :=
      db.verifications.map (fun w => if w.id == v.id then v else w) }

/-- The two pre-save hooks of the Verification schema: copy `itemId` into
the legacy `experienceId` field when the kind is EXPERIENCE, and stamp
`actedAt` when the (just modified) status is no longer PENDING. -/
def applyVerificationHooks (now : Nat) (v : Verification) : Verification :=
  let v1 := if v.itemType == ItemType.experience
    then { v with experienceId := some v.itemId } else v
  if v1.status == VStatus.pending then v1 else { v1 with actedAt := some now }

/-- Inserting a new Verification document.  The schema declares the token
field `unique: true`, so an insert whose token collides with a stored one
fails with a duplicate-key error. -/
def insertVerification (db : DB) (v : Verification) : Except String DB :=
  if db.verifications.any (fun w => w.token == v.token) then
    Except.error "E11000 duplicate key error"
  else
    Except.ok { db with verifications := db.verifications ++ [v],
                        nextVerificationId := db.nextVerificationId + 1 }

/-- The action enum of the VerificationLog schema. -/
def logActionEnum : List String := ["CREATED", "APPROVED", "REJECTED", "VIEWED"]

/-- Saving a VerificationLog document.  The schema validates `action`
against its enum (rejecting anything else) and lower-cases `actorEmail`. -/
def saveLog (db : DB) (e : LogEntry) : Except String DB :=
  if logActionEnum.contains e.action then
    Except.ok { db with logs := db.logs ++ [{ e with actorEmail := lowerStr e.actorEmail }] }
  else
    Except.error "ValidationError: action is not a valid enum value"

/-- 72 hours in milliseconds: the default for `expiresAt`. -/
def verificationTTLms : Nat := 72 * 60 * 60 * 1000

/-- Hex digit for a value below 16, as produced by Buffer hex encoding. -/
def hexDigit (n : Nat) : Char :=
  if n < 10 then Char.ofNat (48 + n) else Char.ofNat (87 + n)

/-- Hex encoding of a byte list (`Buffer.toString('hex')`). -/
def toHexChars : List Nat → List Char
  | [] => []
  | b :: bs => hexDigit (b / 16) :: hexDigit (b % 16) :: toHexChars bs

/-- `generateVerificationToken = crypto.randomBytes(32).toString('hex')`:
the 32 random bytes drawn from the secure source are an explicit input of
the embedding; the token is their hex encoding and depends on nothing
else. -/
def generateVerificationToken (randomBytes : List Nat) : String :=
  String.mk (toHexChars randomBytes)

/-- Modeled from the TTL index declared on `verificationSchema.expiresAt`
(`index: { expireAfterSeconds: 0 }`): MongoDB automatically removes every
document whose `expiresAt` lies at or before the current time. -/
def ttlSweep (db : DB) (now : Nat) : DB :=
  { db with verifications := db.verifications.filter (fun v => now < v.expiresAt) }

/-- The duplicate-pending query of the unified request route:
`Verification.findOne({ itemId, itemType, status: 'PENDING', expiresAt: { $gt: now } })`. -/
def pendingPred (now : Nat) (iid : Nat) (t : ItemType) (v : Verification) : Bool :=
  v.itemId == iid && v.itemType == t && v.status == VStatus.pending && now < v.expiresAt

/-- Unified `POST /request/:itemType/:itemId` (authenticated as `user`).
`rand` is the stream of random bytes available to the call; the route
invokes the token generator exactly once, consuming 32 of them.  `emailOk`
is whether the outbound request email succeeds. -/
def requestVerification (db : DB) (now : Nat) (user : UserRec) (itemTypeStr : String)
    (itemId : Nat) (verifierEmail : Option String) (rand : List Nat) (emailOk : Bool) :
    RouteOut :=
  if strFalsy verifierEmail then
    ⟨⟨400, "Verifier email is required"⟩, db, [], []⟩
  else
    let vEmail := jsOrEmpty verifierEmail
    match parseItemType itemTypeStr with
    | none =>
      ⟨⟨400, "Invalid item type. Must be one of: EXPERIENCE, EDUCATION, GITHUB_PROJECT"⟩,
        db, [], []⟩
    | some t =>
      match findOwnedItem db t itemId user.id with
      | none => ⟨⟨404, lowerStr itemTypeStr ++ " not found"⟩, db, [], []⟩
      | some item =>
        if item.verified then
          ⟨⟨400, lowerStr itemTypeStr ++ " is already verified"⟩, db, [], []⟩
        else
          match findVerifierByEmail db vEmail with
          | none => ⟨⟨400, "Verifier not found or not registered as verifier"⟩, db, [], []⟩
          | some verifier =>
            match findUserById db user.id with
            | none => ⟨⟨500, "Failed to create verification request"⟩, db, [], []⟩
            | some student =>
              if strFalsy student.institute || strFalsy verifier.institute then
                ⟨⟨400, "Both student and verifier must have institutes associated"⟩,
                  db, [], []⟩
              else if !(student.institute == verifier.institute) then
                ⟨⟨403, "Verification can only be requested from verifiers in your institution"⟩,
                  db, [], []⟩
              else
                match db.verifications.find? (pendingPred now itemId t) with
                | some _ =>
                  ⟨⟨400, "Verification request already pending for this "
                      ++ lowerStr itemTypeStr⟩, db, [], []⟩
                | none =>
                  let token := generateVerificationToken (rand.take 32)
                  let v := applyVerificationHooks now
                    { id := db.nextVerificationId, itemId := itemId, itemType := t,
                      experienceId := none, verifierEmail := lowerStr vEmail, token := token,
                      status := VStatus.pending, comment := none, actedBy := none,
                      actedAt := none, expiresAt := now + verificationTTLms, createdAt := now }
                  match insertVerification db v with
                  | Except.error _ =>
                    ⟨⟨500, "Failed to create verification request"⟩, db, [], []⟩
                  | Except.ok db1 =>
                    match saveLog db1 ⟨v.id, "CREATED", user.email, now⟩ with
                    | Except.error _ =>
                      ⟨⟨500, "Failed to create verification request"⟩, db1, [], []⟩
                    | Except.ok db2 =>
                      ⟨⟨201, "Verification request sent successfully"⟩, db2, [vEmail],
                        if emailOk then []
                        else ["Failed to send verification email, but request was created"]⟩

/-- The lookup shared by the unified token routes for decisions:
`Verification.findOne({ token, status: 'PENDING', expiresAt: { $gt: now } })`. -/
def decidePred (now : Nat) (token : String) (v : Verification) : Bool :=
  v.token == token && v.status == VStatus.pending && now < v.expiresAt

/-- Unified `GET /:token` (public). -/
def getVerificationByToken (db : DB) (now : Nat) (token : String) : RouteOut :=
  match db.verifications.find? (fun v => v.token == token && now < v.expiresAt) with
  | none => ⟨⟨404, "Verification not found or expired"⟩, db, [], []⟩
  | some v =>
    match findItem db v.itemType v.itemId with
    | none => ⟨⟨404, "Associated item not found"⟩, db, [], []⟩
    | some item =>
      match saveLog db ⟨v.id, "VIEWED", v.verifierEmail, now⟩ with
      | Except.error _ => ⟨⟨500, "Failed to fetch verification"⟩, db, [], []⟩
      | Except.ok db1 =>
        match findUserById db item.userId with
        | none => ⟨⟨500, "Failed to fetch verification"⟩, db1, [], []⟩
        | some _student => ⟨⟨200, "OK"⟩, db1, [], []⟩

/-- Unified `POST /:token/approve` (public, token plus actorEmail). -/
def approveByToken (db : DB) (now : Nat) (token : String) (actorEmail : Option String)
    (comment : Option String) : RouteOut :=
  if strFalsy actorEmail then
    ⟨⟨400, "Actor email is required"⟩, db, [], []⟩
  else
    let actor := lowerStr (jsOrEmpty actorEmail)
    match db.verifications.find? (decidePred now token) with
    | none => ⟨⟨404, "Verification not found, already processed, or expired"⟩, db, [], []⟩
    | some v =>
      let v1 := applyVerificationHooks now
        { v with status := VStatus.approved, comment := some (jsOrEmpty comment),
                 actedBy := some actor }
      let db1 := updateVerification db v1
      let db2 := updateItem db1 v.itemType v.itemId (fun it =>
        { it with verified := true, verifiedAt := some now,
                  verifiedBy := some actor, verifierComment := some (jsOrEmpty comment) })
      match saveLog db2 ⟨v.id, "APPROVED", actor, now⟩ with
      | Except.error _ => ⟨⟨500, "Failed to approve verification"⟩, db2, [], []⟩
      | Except.ok db3 =>
        ⟨⟨200, itemTypeLower v.itemType ++ " verified successfully"⟩, db3, [], []⟩

/-- Unified `POST /:token/reject` (public, token plus actorEmail). -/
def rejectByToken (db : DB) (now : Nat) (token : String) (actorEmail : Option String)
    (comment : Option String) : RouteOut :=
  if strFalsy actorEmail then
    ⟨⟨400, "Actor email is required"⟩, db, [], []⟩
  else
    let actor := lowerStr (jsOrEmpty actorEmail)
    match db.verifications.find? (decidePred now token) with
    | none => ⟨⟨404, "Verification not found, already processed, or expired"⟩, db, [], []⟩
    | some v =>
      let v1 := applyVerificationHooks now
        { v with status := VStatus.rejected, comment := some (jsOrEmpty comment),
                 actedBy := some actor }
      let db1 := updateVerification db v1
      let db2 := updateItem db1 v.itemType v.itemId (fun it =>
        { it with verifiedBy := some actor, verifierComment := some (jsOrEmpty comment) })
      match saveLog db2 ⟨v.id, "REJECTED", actor, now⟩ with
      | Except.error _ => ⟨⟨500, "Failed to reject verification"⟩, db2, [], []⟩
      | Except.ok db3 => ⟨⟨200, "Verification rejected"⟩, db3, [], []⟩

/-- Unified `GET /history/:itemType/:itemId` (owner only): read-only. -/
def getVerificationHistory (db : DB) (user : UserRec) (itemTypeStr : String)
    (itemId : Nat) : RouteOut :=
  match parseItemType itemTypeStr with
  | none => ⟨⟨500, "Failed to fetch verification history"⟩, db, [], []⟩
  | some t =>
    match findOwnedItem db t itemId user.id with
    | none => ⟨⟨404, lowerStr itemTypeStr ++ " not found"⟩, db, [], []⟩
    | some _item => ⟨⟨200, "OK"⟩, db, [], []⟩

/-- The lookup shared by the verifier dashboard decision routes:
`Verification.findOne({ _id, verifierEmail, status: 'PENDING', expiresAt: { $gt: now } })`. -/
def verifierPred (now : Nat) (requestId : Nat) (email : String) (v : Verification) : Bool :=
  v.id == requestId && v.verifierEmail == email && v.status == VStatus.pending
    && now < v.expiresAt

/-- Verifier dashboard `POST /approve/:requestId` (authenticated verifier). -/
def verifierApprove (db : DB) (now : Nat) (user : UserRec) (requestId : Nat)
    (comment : Option String) (emailOk : Bool) : RouteOut :=
  if !(user.role == "VERIFIER") then
    ⟨⟨403, "Access denied. Verifier role required."⟩, db, [], []⟩
  else
    match db.verifications.find? (verifierPred now requestId user.email) with
    | none => ⟨⟨404, "Verification request not found or already processed"⟩, db, [], []⟩
    | some v =>
      match findItem db v.itemType v.itemId with
      | none => ⟨⟨403, "Can only verify items from students in your institution"⟩, db, [], []⟩
      | some item =>
        match findUserById db item.userId with
        | none => ⟨⟨500, "Failed to approve verification"⟩, db, [], []⟩
        | some owner =>
          if !(owner.institute == user.institute) then
            ⟨⟨403, "Can only verify items from students in your institution"⟩, db, [], []⟩
          else
            let v1 := applyVerificationHooks now
              { v with status := VStatus.approved, comment := some (jsOrEmpty comment),
                       actedBy := some user.email, actedAt := some now }
            let db1 := updateVerification db v1
            let db2 := updateItem db1 v.itemType v.itemId (fun it =>
              { it with verified := true, verifiedAt := some now,
                        verifiedBy := some user.email,
                        verifierComment := some (jsOrEmpty comment) })
            match saveLog db2 ⟨v.id, "APPROVED", user.email, now⟩ with
            | Except.error _ => ⟨⟨500, "Failed to approve verification"⟩, db2, [], []⟩
            | Except.ok db3 =>
              ⟨⟨200, "APPROVED"⟩, db3, [owner.email],
                if emailOk then [] else ["Failed to send approval notification email"]⟩

/-- Verifier dashboard `POST /reject/:requestId` (authenticated verifier). -/
def verifierReject (db : DB) (now : Nat) (user : UserRec) (requestId : Nat)
    (comment : Option String) (emailOk : Bool) : RouteOut :=
  if !(user.role == "VERIFIER") then
    ⟨⟨403, "Access denied. Verifier role required."⟩, db, [], []⟩
  else
    match db.verifications.find? (verifierPred now requestId user.email) with
    | none => ⟨⟨404, "Verification request not found or already processed"⟩, db, [], []⟩
    | some v =>
      match findItem db v.itemType v.itemId with
      | none => ⟨⟨403, "Can only verify items from students in your institution"⟩, db, [], []⟩
      | some item =>
        match findUserById db item.userId with
        | none => ⟨⟨500, "Failed to reject verification"⟩, db, [], []⟩
        | some owner =>
          if !(owner.institute == user.institute) then
            ⟨⟨403, "Can only verify items from students in your institution"⟩, db, [], []⟩
          else
            let v1 := applyVerificationHooks now
              { v with status := VStatus.rejected, comment := some (jsOrEmpty comment),
                       actedBy := some user.email, actedAt := some now }
            let db1 := updateVerification db v1
            let db2 := updateItem db1 v.itemType v.itemId (fun it =>
              { it with verifiedBy := some user.email,
                        verifierComment := some (jsOrEmpty comment) })
            match saveLog db2 ⟨v.id, "REJECTED", user.email, now⟩ with
            | Except.error _ => ⟨⟨500, "Failed to reject verification"⟩, db2, [], []⟩
            | Except.ok db3 =>
              ⟨⟨200, "REJECTED"⟩, db3, [owner.email],
                if emailOk then [] else ["Failed to send rejection notification email"]⟩

/-- Verifier dashboard `POST /notify-resend/:requestId`: re-sends the
request email and then attempts to append an EMAIL_RESENT log entry. -/
def notifyResend (db : DB) (now : Nat) (user : UserRec) (requestId : Nat)
    (emailOverride : Option String) (emailOk : Bool) : RouteOut :=
  if !(user.role == "VERIFIER") then
    ⟨⟨403, "Access denied. Verifier role required."⟩, db, [], []⟩
  else
    match db.verifications.find? (verifierPred now requestId user.email) with
    | none => ⟨⟨404, "Verification request not found or expired"⟩, db, [], []⟩
    | some v =>
      match findItem db v.itemType v.itemId with
      | none => ⟨⟨404, "Associated item not found"⟩, db, [], []⟩
      | some item =>
        match findUserById db item.userId with
        | none => ⟨⟨500, "Failed to resend notification"⟩, db, [], []⟩
        | some _owner =>
          let target := if strFalsy emailOverride then v.verifierEmail
            else jsOrEmpty emailOverride
          if !emailOk then
            ⟨⟨500, "Failed to send verification email"⟩, db, [target], []⟩
          else
            match saveLog db ⟨v.id, "EMAIL_RESENT", user.email, now⟩ with
            | Except.error _ => ⟨⟨500, "Failed to resend notification"⟩, db, [target], []⟩
            | Except.ok db1 => ⟨⟨200, "ok"⟩, db1, [target], []⟩

/-- Legacy `POST /:token/approve` (experience-only router): updates the
record, then `Experience.findByIdAndUpdate(verification.experienceId,
{ verified: true, verifiedAt })` — it sets neither `verifiedBy` nor
`verifierComment` on the item. -/
def legacyApproveByToken (db : DB) (now : Nat) (token : String) (actorEmail : Option String)
    (comment : Option String) : RouteOut :=
  if strFalsy actorEmail then
    ⟨⟨400, "Actor email is required"⟩, db, [], []⟩
  else
    let actor := lowerStr (jsOrEmpty actorEmail)
    match db.verifications.find? (decidePred now token) with
    | none => ⟨⟨404, "Verification not found, already processed, or expired"⟩, db, [], []⟩
    | some v =>
      let v1 := applyVerificationHooks now
        { v with status := VStatus.approved, comment := some (jsOrEmpty comment),
                 actedBy := some actor }
      let db1 := updateVerification db v1
      let db2 := match v.experienceId with
        | none => db1
        | some eid => updateItem db1 ItemType.experience eid (fun it =>
            { it with verified := true, verifiedAt := some now })
      match saveLog db2 ⟨v.id, "APPROVED", actor, now⟩ with
      | Except.error _ => ⟨⟨500, "Failed to approve verification"⟩, db2, [], []⟩
      | Except.ok db3 => ⟨⟨200, "Experience verified successfully"⟩, db3, [], []⟩

/-- Legacy `POST /:token/reject` (experience-only router): updates the
record and the log, and does not touch the experience at all. -/
def legacyRejectByToken (db : DB) (now : Nat) (token : String) (actorEmail : Option String)
    (comment : Option String) : RouteOut :=
  if strFalsy actorEmail then
    ⟨⟨400, "Actor email is required"⟩, db, [], []⟩
  else
    let actor := lowerStr (jsOrEmpty actorEmail)
    match db.verifications.find? (decidePred now token) with
    | none => ⟨⟨404, "Verification not found, already processed, or expired"⟩, db, [], []⟩
    | some v =>
      let v1 := applyVerificationHooks now
        { v with status := VStatus.rejected, comment := some (jsOrEmpty comment),
                 actedBy := some actor }
      let db1 := updateVerification db v1
      match saveLog db1 ⟨v.id, "REJECTED", actor, now⟩ with
      | Except.error _ => ⟨⟨500, "Failed to reject verification"⟩, db1, [], []⟩
      | Except.ok db2 => ⟨⟨200, "Verification rejected"⟩, db2, [], []⟩

/-! Derived predicates about states. -/

/-- Distinctness of stored tokens (the unique index on the token field). -/
def tokensUnique (db : DB) : Prop :=
  (db.verifications.map (fun v => v.token)).Nodup

/-- Every stored log entry carries an action from the schema enum. -/
def logsValid (db : DB) : Prop :=
  ∀ e ∈ db.logs, e.action ∈ logActionEnum

/-- At most one unexpired PENDING verification per `(itemId, itemKind)`. -/
def singlePending (db : DB) (now : Nat) : Prop :=
  ∀ iid t, db.verifications.countP (pendingPred now iid t) ≤ 1

/-- Every record of the first list survives, by id, in the second. -/
def recordsKept (l l2 : List Verification) : Prop :=
  ∀ v ∈ l, ∃ w ∈ l2, w.id = v.id

/-! Concrete fixtures used by witnesses and counterexamples. -/

/-- A student at institute MIT. -/
def exStudent : UserRec := ⟨1, "s@x.com", "Stu", "STUDENT", some "MIT"⟩

/-- A verifier at institute MIT. -/
def exVerifier : UserRec := ⟨2, "v@x.com", "Ver", "VERIFIER", some "MIT"⟩

/-- An unverified experience owned by the student. -/
def exItem : Item := ⟨10, ItemType.experience, 1, "Internship", false, none, none, none⟩

/-- A live pending verification of the experience. -/
def exPending : Verification :=
  ⟨0, 10, ItemType.experience, some 10, "v@x.com", "t0", VStatus.pending,
    none, none, none, 1000, 0⟩

/-- State with one live pending request. -/
def exDB : DB := ⟨[exStudent, exVerifier], [exItem], [exPending], [], 1⟩

/-- A verification already decided (APPROVED) with expiry at 1000. -/
def exApproved : Verification :=
  ⟨0, 10, ItemType.experience, some 10, "v@x.com", "t1", VStatus.approved,
    some "fine", some "v@x.com", some 50, 1000, 0⟩

/-- State with one terminal (approved) record. -/
def exDBterm : DB := ⟨[exStudent, exVerifier], [exItem], [exApproved], [], 1⟩

/-- The student with no institute associated. -/
def exStudentNoInst : UserRec := ⟨1, "s@x.com", "Stu", "STUDENT", none⟩

/-- State where the requester has no institute. -/
def exDBNoInst : DB := ⟨[exStudentNoInst, exVerifier], [exItem], [], [], 1⟩

/-- A pending verification of an unrelated item whose stored token is the
hex encoding of 32 zero bytes. -/
def exColl : Verification :=
  ⟨0, 99, ItemType.education, none, "v@x.com",
    "0000000000000000000000000000000000000000000000000000000000000000",
    VStatus.pending, none, none, none, 1000, 0⟩

/-- State holding the colliding token. -/
def exDBColl : DB := ⟨[exStudent, exVerifier], [exItem], [exColl], [], 1⟩

/-- A random stream long enough for two draws: 32 zero bytes (colliding
with the stored token) followed by 32 one bytes (which would yield a fresh
token). -/
def exRandColl : List Nat := List.replicate 32 0 ++ List.replicate 32 1

/-- State with no verification records. -/
def exDBEmpty : DB := ⟨[exStudent, exVerifier], [exItem], [], [], 1⟩

/-- A verifier affiliated with a different institute. -/
def exVerifierStanford : UserRec := ⟨2, "v@x.com", "Ver", "VERIFIER", some "Stanford"⟩

/-- State where requester and verifier institutes differ. -/
def exDBMismatch : DB := ⟨[exStudent, exVerifierStanford], [exItem], [], [], 1⟩

/-! Helper lemmas. -/

/-- The status field is untouched by the pre-save hooks. -/
theorem applyVerificationHooks_status (now : Nat) (v : Verification) :
    (applyVerificationHooks now v).status = v.status := by
  unfold applyVerificationHooks
  dsimp only
  split <;> split <;> rfl

/-- The id field is untouched by the pre-save hooks. -/
theorem applyVerificationHooks_id (now : Nat) (v : Verification) :
    (applyVerificationHooks now v).id = v.id := by
  unfold applyVerificationHooks
  dsimp only
  split <;> split <;> rfl

/-- A record that is not PENDING never satisfies the live-pending query. -/
theorem pendingPred_false_of_not_pending (now iid : Nat) (t : ItemType) (v : Verification)
    (h : v.status ≠ VStatus.pending) : pendingPred now iid t v = false := by
  unfold pendingPred
  simp [h]

/-- With unique tokens, a stored record that is no longer PENDING makes the
decision query for its token come up empty. -/
theorem find?_decidePred_eq_none (db : DB) (now : Nat) (v : Verification)
    (huniq : tokensUnique db) (hv : v ∈ db.verifications)
    (hterm : v.status ≠ VStatus.pending) :
    db.verifications.find? (decidePred now v.token) = none := by
  rw [List.find?_eq_none]
  intro w hw hpred
  unfold decidePred at hpred
  simp only [Bool.and_eq_true, beq_iff_eq, decide_eq_true_eq] at hpred
  have hwv : w = v := List.inj_on_of_nodup_map huniq hw hv hpred.1.1
  exact hterm (hwv ▸ hpred.1.2)

/-- With unique tokens, an expired record makes the decision query for its
token come up empty, whatever its status. -/
theorem find?_decidePred_expired_eq_none (db : DB) (now : Nat) (v : Verification)
    (huniq : tokensUnique db) (hv : v ∈ db.verifications)
    (hexp : v.expiresAt ≤ now) :
    db.verifications.find? (decidePred now v.token) = none := by
  rw [List.find?_eq_none]
  intro w hw hpred
  unfold decidePred at hpred
  simp only [Bool.and_eq_true, beq_iff_eq, decide_eq_true_eq] at hpred
  have hwv : w = v := List.inj_on_of_nodup_map huniq hw hv hpred.1.1
  subst hwv
  omega

/-- With unique tokens, an expired record makes the plain token lookup of
the read route come up empty, whatever its status. -/
theorem find?_getPred_expired_eq_none (db : DB) (now : Nat) (v : Verification)
    (huniq : tokensUnique db) (hv : v ∈ db.verifications)
    (hexp : v.expiresAt ≤ now) :
    db.verifications.find? (fun w => w.token == v.token && now < w.expiresAt) = none := by
  rw [List.find?_eq_none]
  intro w hw hpred
  simp only [Bool.and_eq_true, beq_iff_eq, decide_eq_true_eq] at hpred
  have hwv : w = v := List.inj_on_of_nodup_map huniq hw hv hpred.1
  subst hwv
  omega

/-- A token stored nowhere makes the decision query come up empty. -/
theorem find?_decidePred_unknown_eq_none (db : DB) (now : Nat) (tk : String)
    (hunk : ∀ w ∈ db.verifications, w.token ≠ tk) :
    db.verifications.find? (decidePred now tk) = none := by
  rw [List.find?_eq_none]
  intro w hw hpred
  unfold decidePred at hpred
  simp only [Bool.and_eq_true, beq_iff_eq, decide_eq_true_eq] at hpred
  exact hunk w hw hpred.1.1

/-- A token stored nowhere makes the plain token lookup come up empty. -/
theorem find?_getPred_unknown_eq_none (db : DB) (now : Nat) (tk : String)
    (hunk : ∀ w ∈ db.verifications, w.token ≠ tk) :
    db.verifications.find? (fun w => w.token == tk && now < w.expiresAt) = none := by
  rw [List.find?_eq_none]
  intro w hw hpred
  simp only [Bool.and_eq_true, beq_iff_eq, decide_eq_true_eq] at hpred
  exact hunk w hw hpred.1

/-- Saving a log entry whose action sits in the schema enum succeeds and
appends exactly that entry with the email lower-cased. -/
theorem saveLog_valid (db : DB) (e : LogEntry) (h : e.action ∈ logActionEnum) :
    saveLog db e =
      Except.ok { db with logs := db.logs ++ [{ e with actorEmail := lowerStr e.actorEmail }] } := by
  unfold saveLog
  rw [if_pos]
  exact List.elem_eq_true_of_mem h

/-- Saving a log entry whose action is outside the schema enum fails. -/
theorem saveLog_invalid (db : DB) (e : LogEntry) (h : e.action ∉ logActionEnum) :
    saveLog db e = Except.error "ValidationError: action is not a valid enum value" := by
  unfold saveLog
  rw [if_neg]
  intro hc
  exact h (List.mem_of_elem_eq_true hc)

/-- C1: once a verification record is terminal (APPROVED or REJECTED),
every later approve or reject call presenting that token gets the
collapsed 404 response and leaves the whole state — in particular the
record's status, comment, actedBy and actedAt — unchanged; and a decision
call can only return success on a record that was PENDING, so the status
transitions exactly once, from PENDING to a terminal state, and never
reverts. -/
theorem C1_terminal_monotonicity (db : DB) (now : Nat) (v : Verification)
    (actorEmail comment : Option String)
    (huniq : tokensUnique db) (hv : v ∈ db.verifications)
    (hactor : strFalsy actorEmail = false) :
    (v.status ≠ VStatus.pending →
      approveByToken db now v.token actorEmail comment =
        ⟨⟨404, "Verification not found, already processed, or expired"⟩, db, [], []⟩ ∧
      rejectByToken db now v.token actorEmail comment =
        ⟨⟨404, "Verification not found, already processed, or expired"⟩, db, [], []⟩) ∧
    ((approveByToken db now v.token actorEmail comment).resp.status = 200 →
      v.status = VStatus.pending) ∧
    ((rejectByToken db now v.token actorEmail comment).resp.status = 200 →
      v.status = VStatus.pending) := by
  have happ : ∀ _ : v.status ≠ VStatus.pending,
      approveByToken db now v.token actorEmail comment =
        ⟨⟨404, "Verification not found, already processed, or expired"⟩, db, [], []⟩ := by
    intro hterm
    have hfind := find?_decidePred_eq_none db now v huniq hv hterm
    simp [approveByToken, hactor, hfind]
  have hrej : ∀ _ : v.status ≠ VStatus.pending,
      rejectByToken db now v.token actorEmail comment =
        ⟨⟨404, "Verification not found, already processed, or expired"⟩, db, [], []⟩ := by
    intro hterm
    have hfind := find?_decidePred_eq_none db now v huniq hv hterm
    simp [rejectByToken, hactor, hfind]
  refine ⟨fun hterm => ⟨happ hterm, hrej hterm⟩, ?_, ?_⟩
  · intro h200
    by_cases hs : v.status = VStatus.pending
    · exact hs
    · rw [happ hs] at h200
      simp at h200
  · intro h200
    by_cases hs : v.status = VStatus.pending
    · exact hs
    · rw [hrej hs] at h200
      simp at h200

/-- C1 witness: on the concrete state holding one APPROVED record, a later
approve presenting its token returns the 404 response and changes
nothing. -/
theorem C1_terminal_monotonicity_witness :
    tokensUnique exDBterm ∧ exApproved ∈ exDBterm.verifications ∧
    strFalsy (some "v@x.com") = false ∧ exApproved.status ≠ VStatus.pending ∧
    approveByToken exDBterm 500 exApproved.token (some "v@x.com") (some "ok") =
      ⟨⟨404, "Verification not found, already processed, or expired"⟩, exDBterm, [], []⟩ :=
  ⟨by unfold tokensUnique; decide, by decide, by decide, by decide,
    ((C1_terminal_monotonicity exDBterm 500 exApproved (some "v@x.com") (some "ok")
      (by unfold tokensUnique; decide) (by decide) (by decide)).1 (by decide)).1⟩

/-- C4: a record whose expiry has passed is treated by getByToken, approve
and reject exactly like an unknown token — the same 404 response as for a
token that was never issued, no state change, regardless of the stored
status. -/
theorem C4_expiry_indistinguishable (db : DB) (now : Nat) (v : Verification) (tk2 : String)
    (a c : Option String)
    (huniq : tokensUnique db) (hv : v ∈ db.verifications) (hexp : v.expiresAt ≤ now)
    (hunk : ∀ w ∈ db.verifications, w.token ≠ tk2)
    (hactor : strFalsy a = false) :
    getVerificationByToken db now v.token =
      ⟨⟨404, "Verification not found or expired"⟩, db, [], []⟩ ∧
    getVerificationByToken db now v.token = getVerificationByToken db now tk2 ∧
    approveByToken db now v.token a c =
      ⟨⟨404, "Verification not found, already processed, or expired"⟩, db, [], []⟩ ∧
    approveByToken db now v.token a c = approveByToken db now tk2 a c ∧
    rejectByToken db now v.token a c =
      ⟨⟨404, "Verification not found, already processed, or expired"⟩, db, [], []⟩ ∧
    rejectByToken db now v.token a c = rejectByToken db now tk2 a c := by
  have h1 := find?_getPred_expired_eq_none db now v huniq hv hexp
  have h2 := find?_getPred_unknown_eq_none db now tk2 hunk
  have h3 := find?_decidePred_expired_eq_none db now v huniq hv hexp
  have h4 := find?_decidePred_unknown_eq_none db now tk2 hunk
  refine ⟨?_, ?_, ?_, ?_, ?_, ?_⟩
  · simp [getVerificationByToken, h1]
  · simp [getVerificationByToken, h1, h2]
  · simp [approveByToken, hactor, h3]
  · simp [approveByToken, hactor, h3, h4]
  · simp [rejectByToken, hactor, h3]
  · simp [rejectByToken, hactor, h3, h4]

/-- C4 witness: at time 2000 the stored record (expiry 1000) is reported
not found by the read route, with no state change. -/
theorem C4_expiry_indistinguishable_witness :
    exApproved.expiresAt ≤ 2000 ∧
    getVerificationByToken exDBterm 2000 exApproved.token =
      ⟨⟨404, "Verification not found or expired"⟩, exDBterm, [], []⟩ :=
  ⟨by decide, (C4_expiry_indistinguishable exDBterm 2000 exApproved "zz" (some "v@x.com") none
    (by unfold tokensUnique; decide) (by decide) (by decide) (by decide) (by decide)).1⟩

/-- Item updates that keep kind and id commute with the item lookup. -/
theorem find?_items_map_update (l : List Item) (t : ItemType) (iid : Nat) (f : Item → Item)
    (hf : ∀ it, (f it).itemType = it.itemType ∧ (f it).id = it.id) :
    (l.map (fun it => if it.itemType == t && it.id == iid then f it else it)).find?
      (fun it => it.itemType == t && it.id == iid) =
    (l.find? (fun it => it.itemType == t && it.id == iid)).map f := by
  rw [List.find?_map]
  have hpg : ((fun it => it.itemType == t && it.id == iid) ∘
      (fun it => if it.itemType == t && it.id == iid then f it else it)) =
      (fun it => it.itemType == t && it.id == iid) := by
    funext it
    by_cases h : (it.itemType == t && it.id == iid) = true
    · simp only [Function.comp_apply, if_pos h]
      rw [(hf it).1, (hf it).2]
    · simp only [Function.comp_apply, if_neg h]
  rw [hpg]
  cases hfind : l.find? (fun it => it.itemType == t && it.id == iid) with
  | none => rfl
  | some it0 =>
    have hp := List.find?_some hfind
    dsimp only [Option.map]
    rw [if_pos hp]

/-- C2 counterexample: on the concrete state, the legacy experience-only
approve succeeds (HTTP 200) yet leaves the experience with `verifiedBy`
and `verifierComment` unset — contradicting the claim that every
successful approve populates them. -/
theorem C2_counterexample :
    (legacyApproveByToken exDB 500 "t0" (some "V@X.com") (some "nice")).resp.status = 200 ∧
    findItem (legacyApproveByToken exDB 500 "t0" (some "V@X.com") (some "nice")).db
      ItemType.experience 10 =
      some ⟨10, ItemType.experience, 1, "Internship", true, some 500, none, none⟩ := by
  decide

/-- C2 as amended: for the unified routes the claim holds — a successful
approve leaves the item verified with verifiedAt, verifiedBy (lowercased
actor email, re-lowercased by the schema) and verifierComment populated,
and a successful reject populates verifiedBy and verifierComment while
leaving the verified flag as it was (false for an item that was awaiting
verification); the legacy experience-only approve however sets only
verified and verifiedAt, and the legacy reject does not touch the item. -/
theorem C2_item_side_effects (db : DB) (now : Nat) (token : String) (a c : Option String)
    (v : Verification) (it0 : Item)
    (hfind : db.verifications.find? (decidePred now token) = some v)
    (hactor : strFalsy a = false)
    (hitem : findItem db v.itemType v.itemId = some it0) :
    ((approveByToken db now token a c).resp.status = 200 ∧
      findItem (approveByToken db now token a c).db v.itemType v.itemId =
        some { it0 with verified := true, verifiedAt := some now,
                        verifiedBy := some (lowerStr (jsOrEmpty a)),
                        verifierComment := some (jsOrEmpty c) }) ∧
    ((rejectByToken db now token a c).resp.status = 200 ∧
      findItem (rejectByToken db now token a c).db v.itemType v.itemId =
        some { it0 with verifiedBy := some (lowerStr (jsOrEmpty a)),
                        verifierComment := some (jsOrEmpty c) }) ∧
    (∀ eid, v.experienceId = some eid →
      findItem (legacyApproveByToken db now token a c).db ItemType.experience eid =
        (findItem db ItemType.experience eid).map
          (fun it => { it with verified := true, verifiedAt := some now })) ∧
    (legacyRejectByToken db now token a c).db.items = db.items := by
  unfold findItem at hitem
  refine ⟨⟨?_, ?_⟩, ⟨?_, ?_⟩, ?_, ?_⟩
  · simp only [approveByToken, hactor, Bool.false_eq_true, if_false, hfind]
    rw [saveLog_valid _ ⟨v.id, "APPROVED", lowerStr (jsOrEmpty a), now⟩
      (show "APPROVED" ∈ logActionEnum by decide)]
  · simp only [approveByToken, hactor, Bool.false_eq_true, if_false, hfind]
    rw [saveLog_valid _ ⟨v.id, "APPROVED", lowerStr (jsOrEmpty a), now⟩
      (show "APPROVED" ∈ logActionEnum by decide)]
    simp only [findItem, updateItem, updateVerification]
    rw [find?_items_map_update]
    · rw [hitem]
      rfl
    · intro it
      exact ⟨rfl, rfl⟩
  · simp only [rejectByToken, hactor, Bool.false_eq_true, if_false, hfind]
    rw [saveLog_valid _ ⟨v.id, "REJECTED", lowerStr (jsOrEmpty a), now⟩
      (show "REJECTED" ∈ logActionEnum by decide)]
  · simp only [rejectByToken, hactor, Bool.false_eq_true, if_false, hfind]
    rw [saveLog_valid _ ⟨v.id, "REJECTED", lowerStr (jsOrEmpty a), now⟩
      (show "REJECTED" ∈ logActionEnum by decide)]
    simp only [findItem, updateItem, updateVerification]
    rw [find?_items_map_update]
    · rw [hitem]
      rfl
    · intro it
      exact ⟨rfl, rfl⟩
  · intro eid heid
    simp only [legacyApproveByToken, hactor, Bool.false_eq_true, if_false, hfind, heid]
    rw [saveLog_valid _ ⟨v.id, "APPROVED", lowerStr (jsOrEmpty a), now⟩
      (show "APPROVED" ∈ logActionEnum by decide)]
    simp only [findItem, updateItem, updateVerification]
    rw [find?_items_map_update]
    · intro it
      exact ⟨rfl, rfl⟩
  · simp only [legacyRejectByToken, hactor, Bool.false_eq_true, if_false, hfind]
    rw [saveLog_valid _ ⟨v.id, "REJECTED", lowerStr (jsOrEmpty a), now⟩
      (show "REJECTED" ∈ logActionEnum by decide)]
    rfl

/-- C2 witness: the amended side effects on the concrete pending state. -/
theorem C2_item_side_effects_witness :
    exDB.verifications.find? (decidePred 500 "t0") = some exPending ∧
    strFalsy (some "V@X.com") = false ∧
    findItem exDB exPending.itemType exPending.itemId = some exItem ∧
    (approveByToken exDB 500 "t0" (some "V@X.com") (some "nice")).resp.status = 200 :=
  ⟨by decide, by decide, by decide,
    ((C2_item_side_effects exDB 500 "t0" (some "V@X.com") (some "nice") exPending exItem
      (by decide) (by decide) (by decide)).1).1⟩

/-- C6 counterexample: with the requester's institute unset, the request
is refused with the 400 invalid-argument response, not 403 Forbidden as
the claim states (no record is created in either case). -/
theorem C6_counterexample :
    requestVerification exDBNoInst 500 exStudentNoInst "EXPERIENCE" 10 (some "v@x.com")
      (List.replicate 32 0) true =
      ⟨⟨400, "Both student and verifier must have institutes associated"⟩,
        exDBNoInst, [], []⟩ ∧
    (requestVerification exDBNoInst 500 exStudentNoInst "EXPERIENCE" 10 (some "v@x.com")
      (List.replicate 32 0) true).resp.status ≠ 403 := by
  decide

/-- C6 as amended: when the resolved verifier exists, requestVerification
answers 403 Forbidden exactly when both institutes are set and differ
(case-sensitive comparison), and answers 400 when either institute is
unset; in both cases the state is unchanged (no record, no log entry) and
no email is attempted. -/
theorem C6_institute_gating (db : DB) (now : Nat) (user : UserRec) (ts : String)
    (iid : Nat) (ve : Option String) (rand : List Nat) (eo : Bool) (t : ItemType)
    (item : Item) (vf stu : UserRec)
    (hne : strFalsy ve = false) (hp : parseItemType ts = some t)
    (hitem : findOwnedItem db t iid user.id = some item) (hnv : item.verified = false)
    (hvf : findVerifierByEmail db (jsOrEmpty ve) = some vf)
    (hstu : findUserById db user.id = some stu) :
    ((strFalsy stu.institute || strFalsy vf.institute) = true →
      requestVerification db now user ts iid ve rand eo =
        ⟨⟨400, "Both student and verifier must have institutes associated"⟩, db, [], []⟩) ∧
    (strFalsy stu.institute = false → strFalsy vf.institute = false →
      stu.institute ≠ vf.institute →
      requestVerification db now user ts iid ve rand eo =
        ⟨⟨403, "Verification can only be requested from verifiers in your institution"⟩,
          db, [], []⟩) := by
  constructor
  · intro hfl
    simp [requestVerification, hne, hp, hitem, hnv, hvf, hstu, hfl]
  · intro h1 h2 hneq
    have hbeq : (stu.institute == vf.institute) = false := beq_eq_false_iff_ne.mpr hneq
    simp [requestVerification, hne, hp, hitem, hnv, hvf, hstu, h1, h2, hbeq]

/-- C6 witness: the concrete mismatch (MIT requester, Stanford verifier)
yields the Forbidden response with no record created. -/
theorem C6_institute_gating_witness :
    findVerifierByEmail exDBMismatch (jsOrEmpty (some "v@x.com")) = some exVerifierStanford ∧
    exStudent.institute ≠ exVerifierStanford.institute ∧
    requestVerification exDBMismatch 500 exStudent "EXPERIENCE" 10 (some "v@x.com")
      (List.replicate 32 0) true =
      ⟨⟨403, "Verification can only be requested from verifiers in your institution"⟩,
        exDBMismatch, [], []⟩ :=
  ⟨by decide, by decide,
    (C6_institute_gating exDBMismatch 500 exStudent "EXPERIENCE" 10 (some "v@x.com")
      (List.replicate 32 0) true ItemType.experience exItem exVerifierStanford exStudent
      (by decide) (by decide) (by decide) (by decide) (by decide) (by decide)).2
      (by decide) (by decide) (by decide)⟩

/-- Hex encoding doubles the length. -/
theorem toHexChars_length (l : List Nat) : (toHexChars l).length = 2 * l.length := by
  induction l with
  | nil => rfl
  | cons b bs ih =>
    simp only [toHexChars, List.length_cons, ih]
    omega

/-- Each hex digit of a value below 16 lies in the hex alphabet. -/
theorem hexDigit_mem_alphabet (n : Nat) (h : n < 16) :
    hexDigit n ∈ "0123456789abcdef".data := by
  interval_cases n <;> decide

/-- Every character of the encoding of a byte list lies in the hex
alphabet. -/
theorem toHexChars_subset (l : List Nat) (hb : ∀ b ∈ l, b < 256) :
    ∀ ch ∈ toHexChars l, ch ∈ "0123456789abcdef".data := by
  induction l with
  | nil =>
    intro ch hch
    simp [toHexChars] at hch
  | cons b bs ih =>
    intro ch hch
    have hb0 : b < 256 := hb b (List.mem_cons_self b bs)
    simp only [toHexChars, List.mem_cons] at hch
    rcases hch with h1 | h2 | h3
    · subst h1
      exact hexDigit_mem_alphabet _ (Nat.div_lt_of_lt_mul (by omega))
    · subst h2
      exact hexDigit_mem_alphabet _ (Nat.mod_lt _ (by omega))
    · exact ih (fun x hx => hb x (List.mem_cons_of_mem _ hx)) ch h3

/-- The token field is untouched by the pre-save hooks. -/
theorem applyVerificationHooks_token (now : Nat) (v : Verification) :
    (applyVerificationHooks now v).token = v.token := by
  unfold applyVerificationHooks
  dsimp only
  split <;> split <;> rfl

/-- An insert whose token is already stored fails on the unique index. -/
theorem insertVerification_collision (db : DB) (v : Verification)
    (h : ∃ w ∈ db.verifications, w.token = v.token) :
    insertVerification db v = Except.error "E11000 duplicate key error" := by
  unfold insertVerification
  rw [if_pos]
  obtain ⟨w, hw, he⟩ := h
  exact List.any_eq_true.mpr ⟨w, hw, by simp [he]⟩

/-- C7 counterexample: facing a token collision the engine does not check
and retry — 32 further random bytes were available and would have produced
a different token, yet the request fails with the duplicate-key 500 and no
record is created. -/
theorem C7_counterexample :
    (requestVerification exDBColl 500 exStudent "EXPERIENCE" 10 (some "v@x.com")
      exRandColl true).resp.status = 500 ∧
    (requestVerification exDBColl 500 exStudent "EXPERIENCE" 10 (some "v@x.com")
      exRandColl true).db = exDBColl ∧
    generateVerificationToken ((exRandColl.drop 32).take 32) ≠ exColl.token := by
  decide

/-- C7 as amended: the issued token is the hex encoding of exactly the 32
random bytes drawn from the secure source — 64 characters over the hex
alphabet, a function of no other input — and uniqueness is defended only
by the unique index on the token field: the engine generates once, and a
colliding insert turns the request into a 500 error with no state change
instead of retrying. -/
theorem C7_token_issuer (bytes rand : List Nat) (db : DB) (now : Nat) (user : UserRec)
    (ts : String) (iid : Nat) (ve : Option String) (eo : Bool) (t : ItemType)
    (item : Item) (vf stu : UserRec) (v2 : Verification)
    (hlen : bytes.length = 32) (hb : ∀ b ∈ bytes, b < 256)
    (hne : strFalsy ve = false) (hp : parseItemType ts = some t)
    (hitem : findOwnedItem db t iid user.id = some item) (hnv : item.verified = false)
    (hvf : findVerifierByEmail db (jsOrEmpty ve) = some vf)
    (hstu : findUserById db user.id = some stu)
    (hsi : strFalsy stu.institute = false) (hvi : strFalsy vf.institute = false)
    (hie : stu.institute = vf.institute)
    (hpend : db.verifications.find? (pendingPred now iid t) = none)
    (hmem : v2 ∈ db.verifications)
    (htok : v2.token = generateVerificationToken (rand.take 32)) :
    (generateVerificationToken bytes).length = 64 ∧
    (∀ ch ∈ (generateVerificationToken bytes).data, ch ∈ "0123456789abcdef".data) ∧
    requestVerification db now user ts iid ve rand eo =
      ⟨⟨500, "Failed to create verification request"⟩, db, [], []⟩ := by
  refine ⟨?_, ?_, ?_⟩
  · show (toHexChars bytes).length = 64
    rw [toHexChars_length, hlen]
  · intro ch hch
    exact toHexChars_subset bytes hb ch hch
  · have hbeq : (stu.institute == vf.institute) = true := beq_iff_eq.mpr hie
    simp only [requestVerification, hne, Bool.false_eq_true, if_false, hp, hitem, hnv,
      hvf, hstu, hsi, hvi, Bool.or_self, hbeq, Bool.not_true, hpend]
    rw [insertVerification_collision]
    exact ⟨v2, hmem, by rw [applyVerificationHooks_token]; exact htok⟩

/-- C7 witness: the collision scenario instantiated concretely. -/
theorem C7_token_issuer_witness :
    exColl ∈ exDBColl.verifications ∧
    exColl.token = generateVerificationToken (exRandColl.take 32) ∧
    requestVerification exDBColl 500 exStudent "EXPERIENCE" 10 (some "v@x.com")
      exRandColl true =
      ⟨⟨500, "Failed to create verification request"⟩, exDBColl, [], []⟩ :=
  ⟨by decide, by decide,
    (C7_token_issuer (List.replicate 32 0) exRandColl exDBColl 500 exStudent "EXPERIENCE"
      10 (some "v@x.com") true ItemType.experience exItem exVerifier exStudent exColl
      (by decide) (by decide) (by decide) (by decide) (by decide) (by decide) (by decide)
      (by decide) (by decide) (by decide) (by decide) (by decide) (by decide)
      (by decide)).2.2⟩

/-- C10: every stored verification-log entry carries an action from the
schema enum {CREATED, APPROVED, REJECTED, VIEWED} — the log save validates
against it — and consequently the verifier notify-resend route, which
appends an EMAIL_RESENT entry only after sending the email, always has
that append rejected by validation and returns a 500 server error with
the state unchanged even though the email was already sent. -/
theorem C10_notify_resend (db : DB) (now : Nat) (user : UserRec) (rid : Nat)
    (ov : Option String) (v : Verification) (item : Item) (owner : UserRec)
    (hrole : user.role = "VERIFIER")
    (hfind : db.verifications.find? (verifierPred now rid user.email) = some v)
    (hitem : findItem db v.itemType v.itemId = some item)
    (howner : findUserById db item.userId = some owner) :
    (∀ dbx e dbx2, saveLog dbx e = Except.ok dbx2 → logsValid dbx → logsValid dbx2) ∧
    notifyResend db now user rid ov true =
      ⟨⟨500, "Failed to resend notification"⟩, db,
        [if strFalsy ov then v.verifierEmail else jsOrEmpty ov], []⟩ := by
  constructor
  · intro dbx e dbx2 hok hval
    unfold saveLog at hok
    by_cases hc : logActionEnum.contains e.action = true
    · rw [if_pos hc] at hok
      injection hok with hok2
      subst hok2
      intro e2 he2
      simp only [List.mem_append, List.mem_singleton] at he2
      rcases he2 with h1 | h2
      · exact hval e2 h1
      · subst h2
        exact List.mem_of_elem_eq_true hc
    · rw [if_neg hc] at hok
      cases hok
  · have hr : (!(user.role == "VERIFIER")) = false := by simp [hrole]
    simp only [notifyResend, hr, Bool.false_eq_true, if_false, hfind, hitem, howner,
      Bool.not_true]
    rw [saveLog_invalid _ ⟨v.id, "EMAIL_RESENT", user.email, now⟩
      (show "EMAIL_RESENT" ∉ logActionEnum by decide)]

/-- C10 witness: the concrete resend on a live pending request: the email
goes out to the verifier, yet the route answers 500 and appends no log
entry. -/
theorem C10_notify_resend_witness :
    exVerifier.role = "VERIFIER" ∧
    exDB.verifications.find? (verifierPred 500 0 exVerifier.email) = some exPending ∧
    notifyResend exDB 500 exVerifier 0 none true =
      ⟨⟨500, "Failed to resend notification"⟩, exDB, ["v@x.com"], []⟩ :=
  ⟨rfl, by decide,
    (C10_notify_resend exDB 500 exVerifier 0 none exPending exItem exStudent
      rfl (by decide) (by decide) (by decide)).2⟩

/-- C9 counterexample: the unified token-based approve succeeds without
attempting any decision notification to the item owner — contradicting the
claim that every successful approve triggers one. -/
theorem C9_counterexample :
    (approveByToken exDB 500 "t0" (some "v@x.com") none).resp.status = 200 ∧
    (approveByToken exDB 500 "t0" (some "v@x.com") none).emails = [] := by
  decide

set_option maxRecDepth 8192 in
/-- C9 as amended: a failed outbound email never changes the response,
the stored state or the attempted recipients of requestVerification or of
the verifier dashboard decisions (the failure is only warned about
server-side); a successful verifier-dashboard approve or reject attempts
exactly one decision notification (to the item owner); the unified
token-based approve and reject attempt no notification at all. -/
theorem C9_email_best_effort (db : DB) (now : Nat) (user : UserRec) (ts : String)
    (iid rid : Nat) (ve a c : Option String) (rand : List Nat) (token : String)
    (eo : Bool) :
    ((requestVerification db now user ts iid ve rand eo).resp =
        (requestVerification db now user ts iid ve rand true).resp ∧
      (requestVerification db now user ts iid ve rand eo).db =
        (requestVerification db now user ts iid ve rand true).db ∧
      (requestVerification db now user ts iid ve rand eo).emails =
        (requestVerification db now user ts iid ve rand true).emails) ∧
    ((verifierApprove db now user rid c eo).resp =
        (verifierApprove db now user rid c true).resp ∧
      (verifierApprove db now user rid c eo).db =
        (verifierApprove db now user rid c true).db ∧
      (verifierApprove db now user rid c eo).emails =
        (verifierApprove db now user rid c true).emails) ∧
    ((verifierReject db now user rid c eo).resp =
        (verifierReject db now user rid c true).resp ∧
      (verifierReject db now user rid c eo).db =
        (verifierReject db now user rid c true).db ∧
      (verifierReject db now user rid c eo).emails =
        (verifierReject db now user rid c true).emails) ∧
    ((verifierApprove db now user rid c eo).resp.status = 200 →
      (verifierApprove db now user rid c eo).emails.length = 1) ∧
    ((verifierReject db now user rid c eo).resp.status = 200 →
      (verifierReject db now user rid c eo).emails.length = 1) ∧
    (approveByToken db now token a c).emails = [] ∧
    (rejectByToken db now token a c).emails = [] := by
  refine ⟨?_, ?_, ?_, ?_, ?_, ?_, ?_⟩
  · cases eo
    case true => exact ⟨rfl, rfl, rfl⟩
    case false =>
      unfold requestVerification
      repeat' first | split | dsimp only
      all_goals first | rfl | contradiction | simp_all
  · cases eo
    case true => exact ⟨rfl, rfl, rfl⟩
    case false =>
      unfold verifierApprove
      repeat' first | split | dsimp only
      all_goals first | rfl | contradiction | simp_all
  · cases eo
    case true => exact ⟨rfl, rfl, rfl⟩
    case false =>
      unfold verifierReject
      repeat' first | split | dsimp only
      all_goals first | rfl | contradiction | simp_all
  · intro h
    unfold verifierApprove at h ⊢
    repeat' first | split at h | dsimp only at h
    all_goals simp_all
  · intro h
    unfold verifierReject at h ⊢
    repeat' first | split at h | dsimp only at h
    all_goals simp_all
  · unfold approveByToken
    repeat' first | split | dsimp only
  · unfold rejectByToken
    repeat' first | split | dsimp only

/-- C9 witness: a concrete successful verifier approve with a failing
notification still answers 200 and attempted exactly one email. -/
theorem C9_email_best_effort_witness :
    (verifierApprove exDB 500 exVerifier 0 (some "ok") false).resp.status = 200 ∧
    (verifierApprove exDB 500 exVerifier 0 (some "ok") false).emails.length = 1 :=
  ⟨by decide, (C9_email_best_effort exDB 500 exVerifier "EXPERIENCE" 10 0 (some "v@x.com")
      (some "a@b.c") (some "ok") [] "t0" false).2.2.2.1 (by decide)⟩

/-- Identical verification lists keep all records. -/
theorem recordsKept_refl (l : List Verification) : recordsKept l l :=
  fun v hv => ⟨v, hv, rfl⟩

/-- Appending keeps all records. -/
theorem recordsKept_append (l l2 : List Verification) : recordsKept l (l ++ l2) :=
  fun v hv => ⟨v, List.mem_append_left _ hv, rfl⟩

/-- The in-place update keeps all records: ids are preserved. -/
theorem recordsKept_update (l : List Verification) (v1 : Verification) :
    recordsKept l (l.map (fun w => if w.id == v1.id then v1 else w)) := by
  intro v hv
  refine ⟨if v.id == v1.id then v1 else v, List.mem_map_of_mem _ hv, ?_⟩
  by_cases h : v.id = v1.id
  · simp [h]
  · simp [h]

/-- A successful log save leaves the verification collection unchanged. -/
theorem saveLog_verifications (db : DB) (e : LogEntry) (db2 : DB)
    (h : saveLog db e = Except.ok db2) : db2.verifications = db.verifications := by
  unfold saveLog at h
  by_cases hc : logActionEnum.contains e.action = true
  · rw [if_pos hc] at h
    injection h with h2
    subst h2
    rfl
  · rw [if_neg hc] at h
    cases h

/-- A successful insert appends exactly the new record. -/
theorem insertVerification_verifications (db : DB) (v : Verification) (db2 : DB)
    (h : insertVerification db v = Except.ok db2) :
    db2.verifications = db.verifications ++ [v] := by
  unfold insertVerification at h
  by_cases hc : (db.verifications.any fun w => w.token == v.token) = true
  · rw [if_pos hc] at h
    cases h
  · rw [if_neg hc] at h
    injection h with h2
    subst h2
    rfl

/-- C5 counterexample: an APPROVED (terminal) record whose expiry has
passed is removed from the store by the TTL index the schema declares on
expiresAt — it does not remain stored indefinitely. -/
theorem C5_counterexample :
    exApproved ∈ exDBterm.verifications ∧ exApproved.status = VStatus.approved ∧
    exApproved.expiresAt ≤ 2000 ∧
    (ttlSweep exDBterm 2000).verifications = [] := by
  decide

/-- C5 as amended: no route handler ever removes a verification record —
every record survives (by id, possibly with updated decision fields)
through every operation, and terminal records stay queryable for history —
but retention is bounded by expiry: the TTL index declared on expiresAt
deletes every record, terminal or not, once its expiresAt has passed. -/
theorem C5_retention (db : DB) (now : Nat) (user : UserRec) (ts : String)
    (iid rid : Nat) (ve a c : Option String) (rand : List Nat) (eo : Bool)
    (token : String) (w : Verification) :
    recordsKept db.verifications
      (requestVerification db now user ts iid ve rand eo).db.verifications ∧
    recordsKept db.verifications (getVerificationByToken db now token).db.verifications ∧
    recordsKept db.verifications (approveByToken db now token a c).db.verifications ∧
    recordsKept db.verifications (rejectByToken db now token a c).db.verifications ∧
    recordsKept db.verifications (verifierApprove db now user rid c eo).db.verifications ∧
    recordsKept db.verifications (verifierReject db now user rid c eo).db.verifications ∧
    recordsKept db.verifications (notifyResend db now user rid ve eo).db.verifications ∧
    recordsKept db.verifications (legacyApproveByToken db now token a c).db.verifications ∧
    recordsKept db.verifications (legacyRejectByToken db now token a c).db.verifications ∧
    recordsKept db.verifications (getVerificationHistory db user ts iid).db.verifications ∧
    (w ∈ (ttlSweep db now).verifications ↔ w ∈ db.verifications ∧ now < w.expiresAt) := by
  refine ⟨?_, ?_, ?_, ?_, ?_, ?_, ?_, ?_, ?_, ?_, ?_⟩
  case _ => unfold requestVerification; repeat' first | split | dsimp only
            all_goals first
              | exact recordsKept_refl _
              | (rename_i hins x db3 heq
                 rw [saveLog_verifications _ _ _ heq,
                   insertVerification_verifications _ _ _ hins]
                 exact recordsKept_append _ _)
              | (rename_i hins x a heq
                 rw [insertVerification_verifications _ _ _ hins]
                 exact recordsKept_append _ _)
  case _ => unfold getVerificationByToken; repeat' first | split | dsimp only
            all_goals first
              | exact recordsKept_refl _
              | (rename_i heq
                 rw [saveLog_verifications _ _ _ heq]
                 exact recordsKept_refl _)
              | (rename_i hsl x heq
                 rw [saveLog_verifications _ _ _ hsl]
                 exact recordsKept_refl _)
              | (rename_i hsl x st heq
                 rw [saveLog_verifications _ _ _ hsl]
                 exact recordsKept_refl _)
  case _ => unfold approveByToken; repeat' first | split | dsimp only
            all_goals first
              | exact recordsKept_refl _
              | (simp only [updateItem, updateVerification]
                 exact recordsKept_update _ _)
              | (rename_i heq
                 rw [saveLog_verifications _ _ _ heq]
                 simp only [updateItem, updateVerification]
                 exact recordsKept_update _ _)
  case _ => unfold rejectByToken; repeat' first | split | dsimp only
            all_goals first
              | exact recordsKept_refl _
              | (simp only [updateItem, updateVerification]
                 exact recordsKept_update _ _)
              | (rename_i heq
                 rw [saveLog_verifications _ _ _ heq]
                 simp only [updateItem, updateVerification]
                 exact recordsKept_update _ _)
  case _ => unfold verifierApprove; repeat' first | split | dsimp only
            all_goals first
              | exact recordsKept_refl _
              | (simp only [updateItem, updateVerification]
                 exact recordsKept_update _ _)
              | (rename_i heq
                 rw [saveLog_verifications _ _ _ heq]
                 simp only [updateItem, updateVerification]
                 exact recordsKept_update _ _)
  case _ => unfold verifierReject; repeat' first | split | dsimp only
            all_goals first
              | exact recordsKept_refl _
              | (simp only [updateItem, updateVerification]
                 exact recordsKept_update _ _)
              | (rename_i heq
                 rw [saveLog_verifications _ _ _ heq]
                 simp only [updateItem, updateVerification]
                 exact recordsKept_update _ _)
  case _ => unfold notifyResend; repeat' first | split | dsimp only
            all_goals first
              | exact recordsKept_refl _
              | (rename_i heq
                 rw [saveLog_verifications _ _ _ heq]
                 exact recordsKept_refl _)
  case _ => unfold legacyApproveByToken; repeat' first | split | dsimp only
            all_goals first
              | exact recordsKept_refl _
              | (simp only [updateItem, updateVerification]
                 exact recordsKept_update _ _)
              | (rename_i heq
                 rw [saveLog_verifications _ _ _ heq]
                 simp only [updateItem, updateVerification]
                 exact recordsKept_update _ _)
  case _ => unfold legacyRejectByToken; repeat' first | split | dsimp only
            all_goals first
              | exact recordsKept_refl _
              | (simp only [updateVerification]
                 exact recordsKept_update _ _)
              | (rename_i heq
                 rw [saveLog_verifications _ _ _ heq]
                 simp only [updateVerification]
                 exact recordsKept_update _ _)
  case _ => unfold getVerificationHistory; repeat' first | split | dsimp only
            all_goals exact recordsKept_refl _
  case _ =>
    unfold ttlSweep
    simp [List.mem_filter]

/-- The itemId field is untouched by the pre-save hooks. -/
theorem applyVerificationHooks_itemId (now : Nat) (v : Verification) :
    (applyVerificationHooks now v).itemId = v.itemId := by
  unfold applyVerificationHooks
  dsimp only
  split <;> split <;> rfl

/-- The itemType field is untouched by the pre-save hooks. -/
theorem applyVerificationHooks_itemType (now : Nat) (v : Verification) :
    (applyVerificationHooks now v).itemType = v.itemType := by
  unfold applyVerificationHooks
  dsimp only
  split <;> split <;> rfl

/-- The live-pending query is antitone in time. -/
theorem pendingPred_mono_time (now now2 iid : Nat) (t : ItemType) (v : Verification)
    (h : now ≤ now2) (hp : pendingPred now2 iid t v = true) :
    pendingPred now iid t v = true := by
  unfold pendingPred at hp ⊢
  simp only [Bool.and_eq_true, decide_eq_true_eq] at hp ⊢
  exact ⟨hp.1, by omega⟩

/-- The live-pending count never grows under the in-place update written
by the decision routes (the updated record is no longer PENDING). -/
theorem countP_update_le (l : List Verification) (now iid : Nat) (t : ItemType)
    (v1 : Verification) (hnp : v1.status ≠ VStatus.pending) :
    (l.map (fun w => if w.id == v1.id then v1 else w)).countP (pendingPred now iid t) ≤
      l.countP (pendingPred now iid t) := by
  rw [List.countP_map]
  apply List.countP_mono_left
  intro w _ hpred
  simp only [Function.comp_apply] at hpred
  by_cases h : (w.id == v1.id) = true
  · rw [if_pos h] at hpred
    rw [pendingPred_false_of_not_pending now iid t v1 hnp] at hpred
    cases hpred
  · rw [if_neg h] at hpred
    exact hpred

/-- Appending a fresh record for a pair with no live pending request keeps
the live-pending count at most one for every pair. -/
theorem singlePending_append (l : List Verification) (now : Nat) (vnew : Verification)
    (hsp : ∀ iid t, l.countP (pendingPred now iid t) ≤ 1)
    (hnone : l.find? (pendingPred now vnew.itemId vnew.itemType) = none) :
    ∀ iid t, ((l ++ [vnew]).countP (pendingPred now iid t)) ≤ 1 := by
  intro iid t
  rw [List.countP_append]
  by_cases hpair : iid = vnew.itemId ∧ t = vnew.itemType
  · obtain ⟨h1, h2⟩ := hpair
    subst h1
    subst h2
    have hz : l.countP (pendingPred now vnew.itemId vnew.itemType) = 0 :=
      List.countP_eq_zero.mpr (List.find?_eq_none.mp hnone)
    have hone : List.countP (pendingPred now vnew.itemId vnew.itemType) [vnew] ≤ 1 :=
      @List.countP_le_length _ (pendingPred now vnew.itemId vnew.itemType) [vnew]
    omega
  · have hz2 : List.countP (pendingPred now iid t) [vnew] = 0 := by
      rw [List.countP_eq_zero]
      intro b hb
      simp only [List.mem_singleton] at hb
      subst hb
      unfold pendingPred
      simp only [Bool.and_eq_true, beq_iff_eq, decide_eq_true_eq, not_and]
      intro h1 _
      exact absurd ⟨h1.1.1.symm, h1.1.2.symm⟩ hpair
    have := hsp iid t
    omega

/-- C3: at most one unexpired PENDING verification per (itemId, itemKind)
at any instant — the property survives the passing of time and every
verification operation — and a requestVerification call made while a live
pending request exists for the pair never succeeds, creates no record, no
log entry and attempts no email; when every other precondition holds it
answers exactly the 400 already-pending conflict. -/
theorem C3_single_pending (db : DB) (now now2 : Nat) (user : UserRec) (ts : String)
    (iid rid : Nat) (ve a c : Option String) (rand : List Nat) (eo : Bool)
    (token : String) (t : ItemType) (v : Verification)
    (hsp : singlePending db now) :
    (now ≤ now2 → singlePending db now2) ∧
    singlePending (requestVerification db now user ts iid ve rand eo).db now ∧
    singlePending (approveByToken db now token a c).db now ∧
    singlePending (rejectByToken db now token a c).db now ∧
    singlePending (getVerificationByToken db now token).db now ∧
    singlePending (verifierApprove db now user rid c eo).db now ∧
    singlePending (verifierReject db now user rid c eo).db now ∧
    (parseItemType ts = some t → v ∈ db.verifications → pendingPred now iid t v = true →
      (requestVerification db now user ts iid ve rand eo).db = db ∧
      (requestVerification db now user ts iid ve rand eo).emails = [] ∧
      (requestVerification db now user ts iid ve rand eo).resp.status ≠ 201) ∧
    (∀ item vf stu, strFalsy ve = false → parseItemType ts = some t →
      findOwnedItem db t iid user.id = some item → item.verified = false →
      findVerifierByEmail db (jsOrEmpty ve) = some vf →
      findUserById db user.id = some stu →
      strFalsy stu.institute = false → strFalsy vf.institute = false →
      stu.institute = vf.institute →
      v ∈ db.verifications → pendingPred now iid t v = true →
      requestVerification db now user ts iid ve rand eo =
        ⟨⟨400, "Verification request already pending for this " ++ lowerStr ts⟩,
          db, [], []⟩) := by
  refine ⟨?_, ?_, ?_, ?_, ?_, ?_, ?_, ?_, ?_⟩
  · intro h iid2 t2
    refine le_trans (List.countP_mono_left ?_) (hsp iid2 t2)
    intro x _ hx
    exact pendingPred_mono_time now now2 iid2 t2 x h hx
  · unfold requestVerification
    split
    · exact hsp
    · try dsimp only
      cases hparse : parseItemType ts with
      | none => exact hsp
      | some t1 =>
        try dsimp only
        cases hfo : findOwnedItem db t1 iid user.id with
        | none => exact hsp
        | some item1 =>
          try dsimp only
          split
          · exact hsp
          · cases hvf2 : findVerifierByEmail db (jsOrEmpty ve) with
            | none => exact hsp
            | some vf1 =>
              try dsimp only
              cases hstu2 : findUserById db user.id with
              | none => exact hsp
              | some stu1 =>
                try dsimp only
                split
                · exact hsp
                · split
                  · exact hsp
                  · cases hpend : List.find? (pendingPred now iid t1) db.verifications with
                    | some pv => exact hsp
                    | none =>
                      try dsimp only
                      split
                      · exact hsp
                      · rename_i x db1 hins
                        try dsimp only
                        split
                        · intro iid2 t2
                          rw [insertVerification_verifications _ _ _ hins]
                          refine singlePending_append _ _ _ hsp ?_ iid2 t2
                          rw [applyVerificationHooks_itemId,
                            applyVerificationHooks_itemType]
                          exact hpend
                        · rename_i x2 db2 hsl
                          intro iid2 t2
                          rw [saveLog_verifications _ _ _ hsl,
                            insertVerification_verifications _ _ _ hins]
                          refine singlePending_append _ _ _ hsp ?_ iid2 t2
                          rw [applyVerificationHooks_itemId,
                            applyVerificationHooks_itemType]
                          exact hpend
  · unfold approveByToken
    repeat' first | split | dsimp only
    all_goals first
      | exact hsp
      | (intro iid2 t2
         simp only [updateItem, updateVerification]
         exact le_trans (countP_update_le _ _ _ _ _
           (by simp [applyVerificationHooks_status])) (hsp iid2 t2))
      | (rename_i heq
         intro iid2 t2
         rw [show _ = _ from saveLog_verifications _ _ _ heq]
         simp only [updateItem, updateVerification]
         exact le_trans (countP_update_le _ _ _ _ _
           (by simp [applyVerificationHooks_status])) (hsp iid2 t2))
  · unfold rejectByToken
    repeat' first | split | dsimp only
    all_goals first
      | exact hsp
      | (intro iid2 t2
         simp only [updateItem, updateVerification]
         exact le_trans (countP_update_le _ _ _ _ _
           (by simp [applyVerificationHooks_status])) (hsp iid2 t2))
      | (rename_i heq
         intro iid2 t2
         rw [show _ = _ from saveLog_verifications _ _ _ heq]
         simp only [updateItem, updateVerification]
         exact le_trans (countP_update_le _ _ _ _ _
           (by simp [applyVerificationHooks_status])) (hsp iid2 t2))
  · unfold getVerificationByToken
    repeat' first | split | dsimp only
    all_goals first
      | exact hsp
      | (rename_i heq
         intro iid2 t2
         rw [show _ = _ from saveLog_verifications _ _ _ heq]
         exact hsp iid2 t2)
      | (rename_i hsl x heq
         intro iid2 t2
         rw [show _ = _ from saveLog_verifications _ _ _ hsl]
         exact hsp iid2 t2)
      | (rename_i hsl x st heq
         intro iid2 t2
         rw [show _ = _ from saveLog_verifications _ _ _ hsl]
         exact hsp iid2 t2)
  · unfold verifierApprove
    repeat' first | split | dsimp only
    all_goals first
      | exact hsp
      | (intro iid2 t2
         simp only [updateItem, updateVerification]
         exact le_trans (countP_update_le _ _ _ _ _
           (by simp [applyVerificationHooks_status])) (hsp iid2 t2))
      | (rename_i heq
         intro iid2 t2
         rw [show _ = _ from saveLog_verifications _ _ _ heq]
         simp only [updateItem, updateVerification]
         exact le_trans (countP_update_le _ _ _ _ _
           (by simp [applyVerificationHooks_status])) (hsp iid2 t2))
  · unfold verifierReject
    repeat' first | split | dsimp only
    all_goals first
      | exact hsp
      | (intro iid2 t2
         simp only [updateItem, updateVerification]
         exact le_trans (countP_update_le _ _ _ _ _
           (by simp [applyVerificationHooks_status])) (hsp iid2 t2))
      | (rename_i heq
         intro iid2 t2
         rw [show _ = _ from saveLog_verifications _ _ _ heq]
         simp only [updateItem, updateVerification]
         exact le_trans (countP_update_le _ _ _ _ _
           (by simp [applyVerificationHooks_status])) (hsp iid2 t2))
  · intro hp hvm hlive
    have hpsome : (db.verifications.find? (pendingPred now iid t)).isSome :=
      List.find?_isSome.mpr ⟨v, hvm, hlive⟩
    obtain ⟨pv, hpv⟩ := Option.isSome_iff_exists.mp hpsome
    unfold requestVerification
    rw [hp]
    dsimp only
    rw [hpv]
    dsimp only
    repeat' first | split | dsimp only
    all_goals exact ⟨rfl, rfl, by decide⟩
  · intro item vf stu hne hp hitem hnv hvf hstu hsi hvi hie hvm hlive
    have hbeq : (stu.institute == vf.institute) = true := beq_iff_eq.mpr hie
    have hpsome : (db.verifications.find? (pendingPred now iid t)).isSome :=
      List.find?_isSome.mpr ⟨v, hvm, hlive⟩
    obtain ⟨pv, hpv⟩ := Option.isSome_iff_exists.mp hpsome
    simp only [requestVerification, hne, Bool.false_eq_true, if_false, hp, hitem, hnv,
      hvf, hstu, hsi, hvi, Bool.or_self, hbeq, Bool.not_true, hpv]

/-- C3 witness: on the concrete state with one live pending request, a
second request for the same item yields exactly the already-pending
conflict with no state change. -/
theorem C3_single_pending_witness :
    singlePending exDB 500 ∧
    exPending ∈ exDB.verifications ∧
    pendingPred 500 10 ItemType.experience exPending = true ∧
    requestVerification exDB 500 exStudent "EXPERIENCE" 10 (some "v@x.com")
      (List.replicate 32 0) true =
      ⟨⟨400, "Verification request already pending for this " ++ lowerStr "EXPERIENCE"⟩,
        exDB, [], []⟩ := by
  have hsp : singlePending exDB 500 := by
    intro iid t
    exact le_trans (@List.countP_le_length _ (pendingPred 500 iid t) exDB.verifications)
      (by decide)
  refine ⟨hsp, by decide, by decide, ?_⟩
  exact (C3_single_pending exDB 500 500 exStudent "EXPERIENCE" 10 0 (some "v@x.com")
    (some "a@b.c") (some "x") (List.replicate 32 0) true "tk" ItemType.experience
    exPending hsp).2.2.2.2.2.2.2.2 exItem exVerifier exStudent (by decide) (by decide)
    (by decide) (by decide) (by decide) (by decide) (by decide) (by decide) (by decide)
    (by decide) (by decide)

/-- A successful log save appends exactly the one entry, lower-cased. -/
theorem saveLog_logs (db : DB) (e : LogEntry) (db2 : DB)
    (h : saveLog db e = Except.ok db2) :
    db2.logs = db.logs ++ [{ e with actorEmail := lowerStr e.actorEmail }] := by
  unfold saveLog at h
  by_cases hc : logActionEnum.contains e.action = true
  · rw [if_pos hc] at h
    injection h with h2
    subst h2
    rfl
  · rw [if_neg hc] at h
    cases h

/-- A successful insert leaves the log collection unchanged. -/
theorem insertVerification_logs (db : DB) (v : Verification) (db2 : DB)
    (h : insertVerification db v = Except.ok db2) : db2.logs = db.logs := by
  unfold insertVerification at h
  by_cases hc : (db.verifications.any fun w => w.token == v.token) = true
  · rw [if_pos hc] at h
    cases h
  · rw [if_neg hc] at h
    injection h with h2
    subst h2
    rfl

/-- The id field is untouched by the pre-save hooks (entry ids). -/
theorem applyVerificationHooks_id2 (now : Nat) (v : Verification) :
    (applyVerificationHooks now v).id = v.id :=
  applyVerificationHooks_id now v

/-- C8: every successful requestVerification appends exactly one CREATED
log entry whose actorEmail is the requester's email (lower-cased by the
schema); every successful getByToken appends exactly one VIEWED entry;
every successful approve (resp. reject) appends exactly one APPROVED
(resp. REJECTED) entry whose actorEmail is the lower-cased actor email
(the schema lower-cases the already lower-cased route value); no
successful call appends more or fewer entries. -/
theorem C8_audit_completeness (db : DB) (now : Nat) (user : UserRec) (ts : String)
    (iid : Nat) (ve a c : Option String) (rand : List Nat) (eo : Bool) (token : String) :
    ((requestVerification db now user ts iid ve rand eo).resp.status = 201 →
      (requestVerification db now user ts iid ve rand eo).db.logs =
        db.logs ++ [⟨db.nextVerificationId, "CREATED", lowerStr user.email, now⟩]) ∧
    ((getVerificationByToken db now token).resp.status = 200 →
      ∃ e, (getVerificationByToken db now token).db.logs = db.logs ++ [e] ∧
        e.action = "VIEWED") ∧
    ((approveByToken db now token a c).resp.status = 200 →
      ∃ e, (approveByToken db now token a c).db.logs = db.logs ++ [e] ∧
        e.action = "APPROVED" ∧ e.actorEmail = lowerStr (lowerStr (jsOrEmpty a))) ∧
    ((rejectByToken db now token a c).resp.status = 200 →
      ∃ e, (rejectByToken db now token a c).db.logs = db.logs ++ [e] ∧
        e.action = "REJECTED" ∧ e.actorEmail = lowerStr (lowerStr (jsOrEmpty a))) := by
  refine ⟨?_, ?_, ?_, ?_⟩
  · unfold requestVerification
    split
    · intro h
      simp at h
    · try dsimp only
      cases hparse : parseItemType ts with
      | none =>
        intro h
        simp at h
      | some t1 =>
        try dsimp only
        cases hfo : findOwnedItem db t1 iid user.id with
        | none =>
          intro h
          simp at h
        | some item1 =>
          try dsimp only
          split
          · intro h
            simp at h
          · cases hvf2 : findVerifierByEmail db (jsOrEmpty ve) with
            | none =>
              intro h
              simp at h
            | some vf1 =>
              try dsimp only
              cases hstu2 : findUserById db user.id with
              | none =>
                intro h
                simp at h
              | some stu1 =>
                try dsimp only
                split
                · intro h
                  simp at h
                · split
                  · intro h
                    simp at h
                  · cases hpend : List.find? (pendingPred now iid t1) db.verifications with
                    | some pv =>
                      intro h
                      simp at h
                    | none =>
                      try dsimp only
                      split
                      · intro h
                        simp at h
                      · rename_i x db1 hins
                        try dsimp only
                        split
                        · intro h
                          simp at h
                        · rename_i x2 db2 hsl
                          intro _
                          rw [saveLog_logs _ _ _ hsl,
                            insertVerification_logs _ _ _ hins]
                          simp [applyVerificationHooks_id]
  · unfold getVerificationByToken
    cases hfind : List.find? (fun w => w.token == token && decide (now < w.expiresAt))
        db.verifications with
    | none =>
      intro h
      simp at h
    | some v1 =>
      try dsimp only
      cases hitem2 : findItem db v1.itemType v1.itemId with
      | none =>
        intro h
        simp at h
      | some it1 =>
        try dsimp only
        split
        · intro h
          simp at h
        · rename_i x db1 hsl
          try dsimp only
          cases hstu3 : findUserById db it1.userId with
          | none =>
            intro h
            simp at h
          | some stu2 =>
            intro _
            rw [saveLog_logs _ _ _ hsl]
            exact ⟨_, rfl, rfl⟩
  · unfold approveByToken
    split
    · intro h
      simp at h
    · try dsimp only
      cases hfind : List.find? (decidePred now token) db.verifications with
      | none =>
        intro h
        simp at h
      | some v1 =>
        try dsimp only
        split
        · intro h
          simp at h
        · rename_i x db1 hsl
          intro _
          rw [saveLog_logs _ _ _ hsl]
          exact ⟨_, rfl, rfl, rfl⟩
  · unfold rejectByToken
    split
    · intro h
      simp at h
    · try dsimp only
      cases hfind : List.find? (decidePred now token) db.verifications with
      | none =>
        intro h
        simp at h
      | some v1 =>
        try dsimp only
        split
        · intro h
          simp at h
        · rename_i x db1 hsl
          intro _
          rw [saveLog_logs _ _ _ hsl]
          exact ⟨_, rfl, rfl, rfl⟩

/-- C8 witness: the concrete successful approve appends exactly one
APPROVED entry with the lower-cased actor email. -/
theorem C8_audit_completeness_witness :
    (approveByToken exDB 500 "t0" (some "V@X.com") none).resp.status = 200 ∧
    ∃ e, (approveByToken exDB 500 "t0" (some "V@X.com") none).db.logs =
      exDB.logs ++ [e] ∧ e.action = "APPROVED" ∧
      e.actorEmail = lowerStr (lowerStr (jsOrEmpty (some "V@X.com"))) :=
  ⟨by decide, (C8_audit_completeness exDB 500 exStudent "EXPERIENCE" 10 (some "v@x.com")
     (some "V@X.com") none [] true "t0").2.2.1 (by decide)⟩

end TruePort
